import Mathlib

set_option maxHeartbeats 1000000

/-!
Shallow embedding of the GiHaNotis crisis-resource service core:
validation.py (field validators, HTML sanitizer, pagination validator),
db.py (the scoped transactional cursor get_db_cursor), and the
reconciliation and admin-update endpoints of app.py
(api_accept_response, api_unaccept_response, api_update_request).
-/

/-- A Python value as it reaches the pagination validator: absent/None, an
int, or a str. (No other runtime type reaches this code path in the claims
considered.) -/
inductive PyVal where
  | none
  | int (n : Int)
  | str (s : String)
  deriving DecidableEq

/-- Python truthiness of the modelled values: None, 0 and "" are falsy. -/
def pyBool : PyVal → Bool
  | .none => false
  | .int n => n != 0
  | .str s => s != ""

/-- Value of a list of decimal digit characters. -/
def digitsVal (ds : List Char) : Int :=
  ds.foldl (fun acc c => acc * 10 + ((c.toNat - 48 : Nat) : Int)) 0

/-- Sign applied to a nonempty all-digit core, as in Python int(str). -/
def signedDigits (sign : Int) (ds : List Char) : Option Int :=
  if !ds.isEmpty && ds.all Char.isDigit then some (sign * digitsVal ds)
  else Option.none

/-- Python int(s) on a str: strip surrounding whitespace, optional sign,
decimal digits; Option.none where CPython raises ValueError. (Underscore
digit grouping and non-ASCII digits are not modelled; no claim uses them.) -/
def pyIntOfStr (s : String) : Option Int :=
  match ((s.data.dropWhile Char.isWhitespace).reverse.dropWhile
      Char.isWhitespace).reverse with
  | '+' :: ds => signedDigits 1 ds
  | '-' :: ds => signedDigits (-1) ds
  | ds => signedDigits 1 ds

/-- Python int(v) on the modelled values; Option.none where int() raises
(TypeError on None, ValueError on a non-numeric str). -/
def pyToInt : PyVal → Option Int
  | .none => Option.none
  | .int n => some n
  | .str s => pyIntOfStr s

/-- One pagination argument as coerced by validate_pagination_params:
the Python expression int(v) if v else default. Option.none when int()
raises (the except branch). -/
def pyCoerce (v : PyVal) (dflt : Int) : Option Int :=
  if pyBool v then pyToInt v else some dflt

/-- validation.py lines 149-174: validate_pagination_params. Coerces both
arguments (falsy values become the defaults 1 and 50), then checks the
bounds, raising ValidationError (modelled as Except.error) otherwise. -/
def validate_pagination_params (page per_page : PyVal) :
    Except String (Int × Int) :=
  match pyCoerce page 1, pyCoerce per_page 50 with
  | some p, some pp =>
    if p < 1 then .error "Page must be >= 1"
    else if pp < 1 ∨ pp > 100 then .error "Per page must be between 1 and 100"
    else .ok (p, pp)
  | _, _ => .error "Invalid pagination parameters"

/-- Case-insensitive literal match of pat (given lowercase) against the head
of s; returns the remainder of s on success. Models matching a regex literal
under re.IGNORECASE. -/
def stripPat (pat s : List Char) : Option (List Char) :=
  match pat, s with
  | [], rest => some rest
  | _ :: _, [] => Option.none
  | p :: ps, c :: cs => if c.toLower = p then stripPat ps cs else Option.none

/-- Does pat occur case-insensitively anywhere in s? -/
def containsPat (pat : List Char) : List Char → Bool
  | [] => (stripPat pat []).isSome
  | c :: cs => (stripPat pat (c :: cs)).isSome || containsPat pat cs

/-- Remainder of s after the earliest case-insensitive occurrence of
closeTag. Models the lazy tail of the tag regexes under re.DOTALL. -/
def findClose (closeTag : List Char) : List Char → Option (List Char)
  | [] => Option.none
  | c :: cs =>
    match stripPat closeTag (c :: cs) with
    | some r => some r
    | Option.none => findClose closeTag cs

/-- Match of the tag regex (openTag, then any characters other than a
closing angle bracket, then that bracket, then the lazy shortest stretch up
to closeTag) at the head of s, under re.IGNORECASE and re.DOTALL; returns
the remainder after the whole match. -/
def matchTag (openTag closeTag s : List Char) : Option (List Char) :=
  match stripPat openTag s with
  | Option.none => Option.none
  | some r1 =>
    match r1.dropWhile (· != '>') with
    | '>' :: r2 => findClose closeTag r2
    | _ => Option.none

/-- One re.sub pass deleting every non-overlapping leftmost match of the tag
pattern. Fuel makes the recursion structural; every step strictly shortens
the text, so fuel = length never runs out. -/
def removeTagFuel (openTag closeTag : List Char) : Nat → List Char → List Char
  | _, [] => []
  | 0, s => s
  | fuel + 1, c :: cs =>
    match matchTag openTag closeTag (c :: cs) with
    | some rest => removeTagFuel openTag closeTag fuel rest
    | Option.none => c :: removeTagFuel openTag closeTag fuel cs

/-- One re.sub pass deleting every non-overlapping leftmost case-insensitive
occurrence of the nonempty literal pat, with the same fuel scheme. -/
def removeAllFuel (pat : List Char) : Nat → List Char → List Char
  | _, [] => []
  | 0, s => s
  | fuel + 1, c :: cs =>
    match stripPat pat (c :: cs) with
    | some rest => removeAllFuel pat fuel rest
    | Option.none => c :: removeAllFuel pat fuel cs

def removeTag (openTag closeTag s : List Char) : List Char :=
  removeTagFuel openTag closeTag s.length s

def removeAll (pat s : List Char) : List Char :=
  removeAllFuel pat s.length s

/-- validation.py lines 119-146: sanitize_html. A falsy (empty) text is
returned as is; otherwise the five dangerous_patterns are applied in source
order, one case-insensitive re.sub pass each. -/
def sanitize_html (text : String) : String :=
  if text = "" then text
  else
    String.mk
      (removeAll "onload=".data
        (removeAll "onerror=".data
          (removeAll "javascript:".data
            (removeTag "<iframe".data "</iframe>".data
              (removeTag "<script".data "</script>".data text.data)))))

/-- Python str.strip() restricted to ASCII whitespace. -/
def pyStrip (s : String) : String :=
  String.mk (((s.data.dropWhile Char.isWhitespace).reverse.dropWhile
      Char.isWhitespace).reverse)

/-- The mutable dict passed to validate_request_data, restricted to the
fields it inspects; an absent key is Option.none. quantity_needed is typed
as an integer, so the isinstance(int) guard holds by construction. -/
structure ReqData where
  item_name : Option String := Option.none
  quantity_needed : Option Int := Option.none
  unit : Option String := Option.none
  description : Option String := Option.none
  deriving DecidableEq

/-- Description clause of validate_request_data: checked only when present
and truthy, sanitized in place. -/
def checkDescription (data : ReqData) : Except String ReqData :=
  match data.description with
  | some description =>
    if description ≠ "" then
      if description.length > 5000 then
        .error "Description too long (max 5000 characters)"
      else .ok { data with description := some (sanitize_html description) }
    else .ok data
  | Option.none => .ok data

/-- Unit clause of validate_request_data. -/
def checkUnit (data : ReqData) : Except String ReqData :=
  match data.unit with
  | some u =>
    if u = "" ∨ pyStrip u = "" then .error "Unit cannot be empty"
    else if u.length > 50 then .error "Unit too long (max 50 characters)"
    else checkDescription data
  | Option.none => checkDescription data

/-- Quantity clause of validate_request_data. -/
def checkQuantity (data : ReqData) : Except String ReqData :=
  match data.quantity_needed with
  | some quantity =>
    if quantity < 0 then .error "Quantity cannot be negative"
    else if quantity > 1000000 then .error "Quantity too large (max 1,000,000)"
    else checkUnit data
  | Option.none => checkUnit data

/-- validation.py lines 15-61: validate_request_data. Checks each present
field in source order; the result is the first error raised, or the dict
with item_name and description sanitized in place. -/
def validate_request_data (data : ReqData) : Except String ReqData :=
  match data.item_name with
  | some item_name =>
    if item_name = "" ∨ pyStrip item_name = "" then
      .error "Item name cannot be empty"
    else if item_name.length > 255 then
      .error "Item name too long (max 255 characters)"
    else if item_name.length < 2 then
      .error "Item name too short (min 2 characters)"
    else checkQuantity { data with item_name := some (sanitize_html item_name) }
  | Option.none => checkQuantity data

/-- A row of the requests table (created_at omitted: immutable and never
inspected by the modelled endpoints). -/
structure Request where
  item_name : String
  quantity_needed : Int
  unit : String
  description : String
  status : String
  deriving DecidableEq

/-- A row of the responses table (responder_name, responder_contact, notes
and created_at omitted: never inspected by the modelled endpoints). -/
structure Response where
  request_id : Nat
  quantity_available : Int
  accepted : Bool
  deriving DecidableEq

/-- The two tables, keyed by primary key. -/
structure DBState where
  requests : List (Nat × Request)
  responses : List (Nat × Response)
  deriving DecidableEq

/-- Primary-key lookup: SELECT ... WHERE id equals k. -/
def findEntry {α : Type} (l : List (Nat × α)) (k : Nat) : Option α :=
  match l with
  | [] => Option.none
  | (a, b) :: tl => if k = a then some b else findEntry tl k

/-- Row update: UPDATE ... SET ... WHERE id equals k (rewrites every row
carrying that key; primary keys are unique in practice). -/
def updEntry {α : Type} (l : List (Nat × α)) (k : Nat) (f : α → α) :
    List (Nat × α) :=
  match l with
  | [] => []
  | (a, b) :: tl =>
    (if a = k then (a, f b) else (a, b)) :: updEntry tl k f

/-- Outcome of the accept/unaccept endpoints. -/
inductive QtyResult where
  | notFound
  | conflict (msg : String)
  | ok (new_quantity : Int)
  deriving DecidableEq

/-- HTTP status the endpoint pairs with each outcome: 404 for a missing
response, 400 for a conflict, 200 for success. -/
def QtyResult.status : QtyResult → Nat
  | .notFound => 404
  | .conflict _ => 400
  | .ok _ => 200

/-- app.py lines 303-358: POST accept on a response. The SELECT joins the
response with its parent request (no row when either is missing); on the
success path both UPDATEs run in the same transaction, and new_quantity is
max(0, quantity_needed - quantity_available). -/
def api_accept_response (st : DBState) (response_id : Nat) :
    QtyResult × DBState :=
  match findEntry st.responses response_id with
  | Option.none => (.notFound, st)
  | some resp =>
    match findEntry st.requests resp.request_id with
    | Option.none => (.notFound, st)
    | some req =>
      if resp.accepted then (.conflict "Response already accepted", st)
      else
        let new_quantity := max 0 (req.quantity_needed - resp.quantity_available)
        (.ok new_quantity,
          { requests := updEntry st.requests resp.request_id
              (fun r => { r with quantity_needed := new_quantity }),
            responses := updEntry st.responses response_id
              (fun r => { r with accepted := true }) })

/-- app.py lines 361-416: POST unaccept on a response. Mirror of accept:
new_quantity is quantity_needed + quantity_available, with no ceiling. -/
def api_unaccept_response (st : DBState) (response_id : Nat) :
    QtyResult × DBState :=
  match findEntry st.responses response_id with
  | Option.none => (.notFound, st)
  | some resp =>
    match findEntry st.requests resp.request_id with
    | Option.none => (.notFound, st)
    | some req =>
      if !resp.accepted then (.conflict "Response is not accepted", st)
      else
        let new_quantity := req.quantity_needed + resp.quantity_available
        (.ok new_quantity,
          { requests := updEntry st.requests resp.request_id
              (fun r => { r with quantity_needed := new_quantity }),
            responses := updEntry st.responses response_id
              (fun r => { r with accepted := false }) })

/-- The JSON body of the admin PUT on a request, restricted to
allowed_fields; an absent key is Option.none. -/
structure ReqPatch where
  item_name : Option String := Option.none
  quantity_needed : Option Int := Option.none
  unit : Option String := Option.none
  description : Option String := Option.none
  status : Option String := Option.none
  deriving DecidableEq

/-- True when no allowed field is present in the body. -/
def ReqPatch.isBlank (p : ReqPatch) : Bool :=
  p.item_name.isNone && p.quantity_needed.isNone && p.unit.isNone &&
    p.description.isNone && p.status.isNone

/-- The dynamically built SET clause: each present field overwrites the
stored row verbatim. -/
def applyPatch (p : ReqPatch) (r : Request) : Request :=
  { item_name := p.item_name.getD r.item_name,
    quantity_needed := p.quantity_needed.getD r.quantity_needed,
    unit := p.unit.getD r.unit,
    description := p.description.getD r.description,
    status := p.status.getD r.status }

/-- Outcome of the admin PUT on a request (the returned row is elided). -/
inductive UpdateResult where
  | notFound
  | badRequest (msg : String)
  | ok
  deriving DecidableEq

/-- app.py lines 239-278: PUT on a request. Existence check, then the
patch is applied verbatim; the handler never calls validate_request_data
on the supplied fields. -/
def api_update_request (st : DBState) (request_id : Nat) (p : ReqPatch) :
    UpdateResult × DBState :=
  match findEntry st.requests request_id with
  | Option.none => (.notFound, st)
  | some _ =>
    if p.isBlank then (.badRequest "No valid fields to update", st)
    else
      (.ok, { st with
        requests := updEntry st.requests request_id (applyPatch p) })

/-- Abstract outcome of a Python block: normal completion or an exception. -/
inductive POutcome where
  | ok
  | exn (e : String)
  deriving DecidableEq

/-- What can go wrong inside get_db_cursor once a connection has been
acquired: the cursor call raising, the body raising, the commit raising. -/
structure CursorScenario where
  cursorFails : Bool
  bodyResult : POutcome
  commitFails : Bool
  deriving DecidableEq

/-- Observable effects of one get_db_cursor use on its connection. -/
structure CursorTrace where
  committed : Bool
  rolledBack : Bool
  released : Bool
  result : POutcome
  deriving DecidableEq

/-- db.py lines 69-92: get_db_cursor as a trace over one scenario. The
cursor call runs before the try block, so when it raises, the finally
clause (which returns the connection to the pool) is never entered; a body
exception triggers rollback and re-raise; a commit exception is caught by
the same except clause, rolled back and re-raised; the finally clause
releases the connection in all three of those paths. -/
def get_db_cursor (s : CursorScenario) : CursorTrace :=
  if s.cursorFails then
    { committed := false, rolledBack := false, released := false,
      result := .exn "cursor" }
  else
    match s.bodyResult with
    | .exn e =>
      { committed := false, rolledBack := true, released := true,
        result := .exn e }
    | .ok =>
      if s.commitFails then
        { committed := false, rolledBack := true, released := true,
          result := .exn "commit" }
      else
        { committed := true, rolledBack := false, released := true,
          result := .ok }

/-- Concrete request row used by closed theorems and witnesses. -/
def reqWater (q : Int) : Request :=
  { item_name := "water", quantity_needed := q, unit := "l",
    description := "", status := "open" }

/-- Concrete response row (against request 1) used by closed theorems and
witnesses. -/
def respOffer (a : Int) (acc : Bool) : Response :=
  { request_id := 1, quantity_available := a, accepted := acc }

/-- Concrete store: request 1 needing q, response 7 offering a. -/
def storeWith (q a : Int) (acc : Bool) : DBState :=
  { requests := [(1, reqWater q)], responses := [(7, respOffer a acc)] }

theorem findEntry_updEntry_self {α : Type} (l : List (Nat × α)) (k : Nat)
    (f : α → α) : findEntry (updEntry l k f) k = (findEntry l k).map f := by
  induction l with
  | nil => rfl
  | cons p tl ih =>
    rcases p with ⟨a, b⟩
    have hupd : updEntry ((a, b) :: tl) k f =
        (if a = k then (a, f b) else (a, b)) :: updEntry tl k f := rfl
    by_cases h : a = k
    · subst h
      rw [hupd, if_pos rfl]
      have h1 : findEntry ((a, f b) :: updEntry tl a f) a =
          if a = a then some (f b) else findEntry (updEntry tl a f) a := rfl
      have h2 : findEntry ((a, b) :: tl) a =
          if a = a then some b else findEntry tl a := rfl
      rw [h1, if_pos rfl, h2, if_pos rfl]
      rfl
    · have h' : ¬ k = a := fun hh => h hh.symm
      rw [hupd, if_neg h]
      have h1 : findEntry ((a, b) :: updEntry tl k f) k =
          if k = a then some b else findEntry (updEntry tl k f) k := rfl
      have h2 : findEntry ((a, b) :: tl) k =
          if k = a then some b else findEntry tl k := rfl
      rw [h1, if_neg h', h2, if_neg h']
      exact ih

theorem removeAllFuel_of_not_contains (pat s : List Char)
    (h : containsPat pat s = false) :
    ∀ fuel, removeAllFuel pat fuel s = s := by
  induction s with
  | nil => intro fuel; cases fuel <;> rfl
  | cons c cs ih =>
    intro fuel
    have hh : (stripPat pat (c :: cs)).isSome = false ∧
        containsPat pat cs = false := by
      simpa [containsPat] using h
    have hs : stripPat pat (c :: cs) = Option.none := by
      cases hsp : stripPat pat (c :: cs) with
      | none => rfl
      | some r => rw [hsp] at hh; simp at hh
    cases fuel with
    | zero => rfl
    | succ n => simp [removeAllFuel, hs, ih hh.2 n]

theorem removeTagFuel_of_not_contains (openTag closeTag s : List Char)
    (h : containsPat openTag s = false) :
    ∀ fuel, removeTagFuel openTag closeTag fuel s = s := by
  induction s with
  | nil => intro fuel; cases fuel <;> rfl
  | cons c cs ih =>
    intro fuel
    have hh : (stripPat openTag (c :: cs)).isSome = false ∧
        containsPat openTag cs = false := by
      simpa [containsPat] using h
    have hs : stripPat openTag (c :: cs) = Option.none := by
      cases hsp : stripPat openTag (c :: cs) with
      | none => rfl
      | some r => rw [hsp] at hh; simp at hh
    have hm : matchTag openTag closeTag (c :: cs) = Option.none := by
      simp [matchTag, hs]
    cases fuel with
    | zero => rfl
    | succ n => simp [removeTagFuel, hm, ih hh.2 n]

theorem removeAll_of_not_contains (pat s : List Char)
    (h : containsPat pat s = false) : removeAll pat s = s :=
  removeAllFuel_of_not_contains pat s h s.length

theorem removeTag_of_not_contains (openTag closeTag s : List Char)
    (h : containsPat openTag s = false) : removeTag openTag closeTag s = s :=
  removeTagFuel_of_not_contains openTag closeTag s h s.length

theorem stringMk_data (s : String) : String.mk s.data = s := rfl

/-- C1: When the response exists, its parent request exists, and the
response is not yet accepted, Accept returns new_quantity = max(0,
quantity_needed - quantity_available), marks the response accepted, stores
new_quantity on the request, and in particular returns 0 (never a negative
value) when quantity_available exceeds quantity_needed. -/
theorem accept_response_spec (st : DBState) (rid : Nat)
    (resp : Response) (req : Request)
    (hresp : findEntry st.responses rid = some resp)
    (hreq : findEntry st.requests resp.request_id = some req)
    (hna : resp.accepted = false) :
    (api_accept_response st rid).1 =
      QtyResult.ok (max 0 (req.quantity_needed - resp.quantity_available)) ∧
    findEntry (api_accept_response st rid).2.responses rid =
      some { resp with accepted := true } ∧
    findEntry (api_accept_response st rid).2.requests resp.request_id =
      some { req with quantity_needed := max 0 (req.quantity_needed - resp.quantity_available) } ∧
    (req.quantity_needed < resp.quantity_available →
      (api_accept_response st rid).1 = QtyResult.ok 0) ∧
    0 ≤ max 0 (req.quantity_needed - resp.quantity_available) := by
  have hout : api_accept_response st rid =
      (QtyResult.ok (max 0 (req.quantity_needed - resp.quantity_available)),
        { requests := updEntry st.requests resp.request_id
            (fun r => { r with quantity_needed := max 0 (req.quantity_needed - resp.quantity_available) }),
          responses := updEntry st.responses rid
            (fun r => { r with accepted := true }) }) := by
    simp only [api_accept_response, hresp, hreq, hna, Bool.false_eq_true,
      if_false]
  refine ⟨by rw [hout], ?_, ?_, ?_, le_max_left _ _⟩
  · rw [hout]
    show findEntry (updEntry st.responses rid
      (fun r => { r with accepted := true })) rid = _
    rw [findEntry_updEntry_self, hresp]
    rfl
  · rw [hout]
    show findEntry (updEntry st.requests resp.request_id
      (fun r => { r with quantity_needed := max 0 (req.quantity_needed - resp.quantity_available) })) resp.request_id = _
    rw [findEntry_updEntry_self, hreq]
    rfl
  · intro hlt
    rw [hout]
    have hz : max 0 (req.quantity_needed - resp.quantity_available) = 0 :=
      max_eq_left (by omega)
    rw [hz]

/-- Witness for C1 at a concrete store: request 1 needs 40, response 7
offers 50 and is not yet accepted, so Accept returns 0. -/
theorem accept_response_spec_witness :
    (api_accept_response (storeWith 40 50 false) 7).1 = QtyResult.ok 0 :=
  (accept_response_spec (storeWith 40 50 false) 7 (respOffer 50 false)
    (reqWater 40) rfl rfl rfl).2.2.2.1 (by decide)

/-- C3: When the response exists, its parent request exists, and the
response is currently accepted, Unaccept returns new_quantity =
quantity_needed + quantity_available (the plain sum, with no ceiling and in
particular no clamp at 1,000,000), marks the response not accepted, and
stores new_quantity on the request. -/
theorem unaccept_response_spec (st : DBState) (rid : Nat)
    (resp : Response) (req : Request)
    (hresp : findEntry st.responses rid = some resp)
    (hreq : findEntry st.requests resp.request_id = some req)
    (hacc : resp.accepted = true) :
    (api_unaccept_response st rid).1 =
      QtyResult.ok (req.quantity_needed + resp.quantity_available) ∧
    findEntry (api_unaccept_response st rid).2.responses rid =
      some { resp with accepted := false } ∧
    findEntry (api_unaccept_response st rid).2.requests resp.request_id =
      some { req with quantity_needed := req.quantity_needed + resp.quantity_available } := by
  have hout : api_unaccept_response st rid =
      (QtyResult.ok (req.quantity_needed + resp.quantity_available),
        { requests := updEntry st.requests resp.request_id
            (fun r => { r with quantity_needed := req.quantity_needed + resp.quantity_available }),
          responses := updEntry st.responses rid
            (fun r => { r with accepted := false }) }) := by
    simp only [api_unaccept_response, hresp, hreq, hacc, Bool.not_true,
      Bool.false_eq_true, if_false]
  refine ⟨by rw [hout], ?_, ?_⟩
  · rw [hout]
    show findEntry (updEntry st.responses rid
      (fun r => { r with accepted := false })) rid = _
    rw [findEntry_updEntry_self, hresp]
    rfl
  · rw [hout]
    show findEntry (updEntry st.requests resp.request_id
      (fun r => { r with quantity_needed := req.quantity_needed + resp.quantity_available })) resp.request_id = _
    rw [findEntry_updEntry_self, hreq]
    rfl

/-- Witness for C3 at a concrete store: request 1 needs 900000 and accepted
response 7 offered 900000, so Unaccept returns 1800000, above the 1,000,000
creation ceiling. -/
theorem unaccept_response_spec_witness :
    (api_unaccept_response (storeWith 900000 900000 true) 7).1 =
      QtyResult.ok 1800000 :=
  (unaccept_response_spec (storeWith 900000 900000 true) 7
    (respOffer 900000 true) (reqWater 900000) rfl rfl rfl).1

/-- C5: Accept on an already-accepted response fails with HTTP 400
Conflict, Unaccept on a not-accepted response fails with HTTP 400 Conflict,
and in both failure cases the whole store (hence the request's
quantity_needed and the response's accepted flag) is left unchanged. -/
theorem conflict_leaves_state_unchanged (st : DBState) (rid : Nat)
    (resp : Response) (req : Request)
    (hresp : findEntry st.responses rid = some resp)
    (hreq : findEntry st.requests resp.request_id = some req) :
    (resp.accepted = true →
      api_accept_response st rid =
        (QtyResult.conflict "Response already accepted", st) ∧
      (api_accept_response st rid).1.status = 400) ∧
    (resp.accepted = false →
      api_unaccept_response st rid =
        (QtyResult.conflict "Response is not accepted", st) ∧
      (api_unaccept_response st rid).1.status = 400) := by
  constructor
  · intro h
    have hout : api_accept_response st rid =
        (QtyResult.conflict "Response already accepted", st) := by
      simp only [api_accept_response, hresp, hreq, h, if_true]
    exact ⟨hout, by rw [hout]; rfl⟩
  · intro h
    have hout : api_unaccept_response st rid =
        (QtyResult.conflict "Response is not accepted", st) := by
      simp only [api_unaccept_response, hresp, hreq, h, Bool.not_false,
        if_true]
    exact ⟨hout, by rw [hout]; rfl⟩

/-- Witness for C5 at a concrete store: Accept on the already-accepted
response 7 returns the conflict and leaves the store untouched. -/
theorem conflict_leaves_state_unchanged_witness :
    api_accept_response (storeWith 40 50 true) 7 =
      (QtyResult.conflict "Response already accepted", storeWith 40 50 true) :=
  ((conflict_leaves_state_unchanged (storeWith 40 50 true) 7
    (respOffer 50 true) (reqWater 40) rfl rfl).1 rfl).1

/-- C2 counterexample: starting from quantity_needed 40 with a response
offering 50, Accept floors the need at 0 and the following Unaccept adds
back the full 50, so the round trip ends at 50, not at the pre-Accept 40. -/
theorem accept_unaccept_roundtrip_counterexample :
    (findEntry (storeWith 40 50 false).requests 1).map
      Request.quantity_needed = some 40 ∧
    (findEntry (api_unaccept_response
        (api_accept_response (storeWith 40 50 false) 7).2 7).2.requests 1).map
      Request.quantity_needed = some 50 ∧
    (50 : Int) ≠ 40 := by decide

/-- C2 (amended): when additionally quantity_available ≤ quantity_needed,
Accept followed by Unaccept on the same response restores the request row,
and with it quantity_needed, exactly. -/
theorem accept_unaccept_roundtrip (st : DBState) (rid : Nat)
    (resp : Response) (req : Request)
    (hresp : findEntry st.responses rid = some resp)
    (hreq : findEntry st.requests resp.request_id = some req)
    (hna : resp.accepted = false)
    (hle : resp.quantity_available ≤ req.quantity_needed) :
    findEntry (api_unaccept_response
      (api_accept_response st rid).2 rid).2.requests resp.request_id = some req := by
  have hacc : (api_accept_response st rid).2 =
      { requests := updEntry st.requests resp.request_id
          (fun r => { r with quantity_needed := max 0 (req.quantity_needed - resp.quantity_available) }),
        responses := updEntry st.responses rid
          (fun r => { r with accepted := true }) } := by
    simp only [api_accept_response, hresp, hreq, hna, Bool.false_eq_true,
      if_false]
  have hresp2 : findEntry (updEntry st.responses rid
      (fun r => { r with accepted := true })) rid =
      some { resp with accepted := true } := by
    rw [findEntry_updEntry_self, hresp]; rfl
  have hreq2 : findEntry (updEntry st.requests resp.request_id
      (fun r => { r with quantity_needed := max 0 (req.quantity_needed - resp.quantity_available) })) resp.request_id =
      some { req with quantity_needed := max 0 (req.quantity_needed - resp.quantity_available) } := by
    rw [findEntry_updEntry_self, hreq]; rfl
  rw [hacc]
  simp only [api_unaccept_response, hresp2, hreq2, Bool.not_true,
    Bool.false_eq_true, if_false]
  rw [findEntry_updEntry_self, findEntry_updEntry_self, hreq]
  have hmax : max 0 (req.quantity_needed - resp.quantity_available) =
      req.quantity_needed - resp.quantity_available := max_eq_right (by omega)
  simp only [Option.map_some', hmax]
  have h3 : req.quantity_needed - resp.quantity_available +
      resp.quantity_available = req.quantity_needed := by omega
  rw [h3]

/-- Witness for C2 (amended) at a concrete store: need 100, offer 60,
Accept then Unaccept restores the request row with quantity_needed 100. -/
theorem accept_unaccept_roundtrip_witness :
    findEntry (api_unaccept_response
      (api_accept_response (storeWith 100 60 false) 7).2 7).2.requests 1 =
      some (reqWater 100) :=
  accept_unaccept_roundtrip (storeWith 100 60 false) 7 (respOffer 60 false)
    (reqWater 100) rfl rfl rfl (by decide)

/-- C4: the admin update endpoint applies the supplied fields without any
validation, so a PUT carrying quantity_needed -5 on an existing request
succeeds and stores a negative quantity_needed, breaking the claimed
invariant. -/
theorem api_update_request_stores_negative :
    (api_update_request (storeWith 100 60 false) 1
        { quantity_needed := some (-5) }).1 = UpdateResult.ok ∧
    (findEntry (api_update_request (storeWith 100 60 false) 1
        { quantity_needed := some (-5) }).2.requests 1).map
      Request.quantity_needed = some (-5) ∧
    (-5 : Int) < 0 := by decide

/-- C6: get_db_cursor commits on normal body completion, rolls back and
re-raises when the body raises, and releases the connection in both of
those paths and when the commit raises; but when the cursor call itself
raises the connection is never released, because that call runs before the
protecting try/finally block. -/
theorem get_db_cursor_release_behavior :
    get_db_cursor { cursorFails := false, bodyResult := .ok, commitFails := false } =
      { committed := true, rolledBack := false, released := true, result := .ok } ∧
    get_db_cursor { cursorFails := false, bodyResult := .exn "boom", commitFails := false } =
      { committed := false, rolledBack := true, released := true, result := .exn "boom" } ∧
    (get_db_cursor { cursorFails := false, bodyResult := .ok, commitFails := true }).released = true ∧
    (get_db_cursor { cursorFails := false, bodyResult := .ok, commitFails := true }).rolledBack = true ∧
    (get_db_cursor { cursorFails := true, bodyResult := .ok, commitFails := false }).released = false := by
  decide

/-- C7 counterexample: the integer input 0 satisfies page < 1, yet
validate_pagination_params does not raise: 0 is falsy, so it is coerced to
the default page 1 and the call returns ok (1, 50). -/
theorem validate_pagination_params_falsy_counterexample :
    (0 : Int) < 1 ∧
    validate_pagination_params (PyVal.int 0) (PyVal.int 50) =
      Except.ok (1, 50) :=
  ⟨by decide, rfl⟩

/-- C7 (amended): validate_pagination_params raises exactly when a truthy
argument fails integer coercion or when the coerced values violate page >= 1
or 1 <= per_page <= 100; absent or otherwise falsy arguments (None, 0, the
empty string) are coerced to the defaults page 1 and per_page 50 without
raising. -/
theorem validate_pagination_params_error_characterization
    (page per_page : PyVal) :
    ((∃ e, validate_pagination_params page per_page = Except.error e) ↔
      pyCoerce page 1 = Option.none ∨ pyCoerce per_page 50 = Option.none ∨
      (∃ p, pyCoerce page 1 = some p ∧ p < 1) ∨
      (∃ pp, pyCoerce per_page 50 = some pp ∧ (pp < 1 ∨ 100 < pp))) ∧
    (pyBool page = false → pyBool per_page = false →
      validate_pagination_params page per_page = Except.ok (1, 50)) := by
  cases hc1 : pyCoerce page 1 with
  | none =>
    constructor
    · simp only [validate_pagination_params, hc1]
      constructor
      · intro _; exact Or.inl trivial
      · intro _; exact ⟨_, rfl⟩
    · intro hb1 hb2
      simp [pyCoerce, hb1] at hc1
  | some a =>
    cases hc2 : pyCoerce per_page 50 with
    | none =>
      constructor
      · simp only [validate_pagination_params, hc1, hc2]
        constructor
        · intro _; exact Or.inr (Or.inl trivial)
        · intro _; exact ⟨_, rfl⟩
      · intro hb1 hb2
        simp [pyCoerce, hb2] at hc2
    | some b =>
      constructor
      · simp only [validate_pagination_params, hc1, hc2]
        by_cases h1 : a < 1
        · rw [if_pos h1]
          simp [h1]
        · rw [if_neg h1]
          by_cases h2 : b < 1 ∨ b > 100
          · rw [if_pos h2]
            simp only [Option.some.injEq]
            constructor
            · intro _
              refine Or.inr (Or.inr (Or.inr ⟨b, rfl, ?_⟩))
              exact h2
            · intro _; exact ⟨_, rfl⟩
          · rw [if_neg h2]
            simp [h1, h2]
      · intro hb1 hb2
        have ha : a = 1 := by
          have h' : pyCoerce page 1 = some 1 := by simp [pyCoerce, hb1]
          rw [hc1] at h'
          injection h' with h''
        have hb : b = 50 := by
          have h' : pyCoerce per_page 50 = some 50 := by simp [pyCoerce, hb2]
          rw [hc2] at h'
          injection h' with h''
        subst ha
        subst hb
        simp only [validate_pagination_params, hc1, hc2]
        norm_num

/-- Witness for C7 (amended): both arguments absent (None) yield the
defaults page 1 and per_page 50 without raising. -/
theorem validate_pagination_params_error_characterization_witness :
    validate_pagination_params PyVal.none PyVal.none = Except.ok (1, 50) :=
  (validate_pagination_params_error_characterization PyVal.none
    PyVal.none).2 rfl rfl

/-- C10: whenever validate_pagination_params returns instead of raising,
the pair satisfies page >= 1 and 1 <= per_page <= 100, and a falsy page or
per_page argument has been coerced to the default 1 or 50 respectively, so
out-of-bounds values never escape the validator. -/
theorem validate_pagination_params_bounds (page per_page : PyVal)
    (p pp : Int)
    (h : validate_pagination_params page per_page = Except.ok (p, pp)) :
    1 ≤ p ∧ 1 ≤ pp ∧ pp ≤ 100 ∧
    (pyBool page = false → p = 1) ∧ (pyBool per_page = false → pp = 50) := by
  cases hc1 : pyCoerce page 1 with
  | none => simp [validate_pagination_params, hc1] at h
  | some a =>
    cases hc2 : pyCoerce per_page 50 with
    | none => simp [validate_pagination_params, hc1, hc2] at h
    | some b =>
      simp only [validate_pagination_params, hc1, hc2] at h
      by_cases h1 : a < 1
      · rw [if_pos h1] at h
        simp at h
      · rw [if_neg h1] at h
        by_cases h2 : b < 1 ∨ b > 100
        · rw [if_pos h2] at h
          simp at h
        · rw [if_neg h2] at h
          have hab : a = p ∧ b = pp := by
            simpa only [Except.ok.injEq, Prod.mk.injEq] using h
          obtain ⟨rfl, rfl⟩ := hab
          push_neg at h2
          refine ⟨by omega, by omega, by omega, ?_, ?_⟩
          · intro hb1
            have h' : pyCoerce page 1 = some 1 := by simp [pyCoerce, hb1]
            rw [hc1] at h'
            injection h' with h''
          · intro hb2
            have h' : pyCoerce per_page 50 = some 50 := by
              simp [pyCoerce, hb2]
            rw [hc2] at h'
            injection h' with h''

/-- Witness for C10 at concrete falsy inputs integer 0 and empty string:
the validator returns exactly the defaults, which lie within the bounds. -/
theorem validate_pagination_params_bounds_witness :
    1 ≤ (1 : Int) ∧ 1 ≤ (50 : Int) ∧ (50 : Int) ≤ 100 ∧
    (pyBool (PyVal.int 0) = false → (1 : Int) = 1) ∧
    (pyBool (PyVal.str "") = false → (50 : Int) = 50) :=
  validate_pagination_params_bounds (PyVal.int 0) (PyVal.str "") 1 50 rfl

/-- C9: validate_request_data rejects an item_name of length 1 and accepts
length 2, rejects quantity_needed -1 and 1000001, and accepts 0 and
1000000, with every other field absent. -/
theorem validate_request_data_boundaries :
    validate_request_data { item_name := some "a" } =
      Except.error "Item name too short (min 2 characters)" ∧
    validate_request_data { item_name := some "ab" } =
      Except.ok { item_name := some "ab" } ∧
    validate_request_data { quantity_needed := some (-1) } =
      Except.error "Quantity cannot be negative" ∧
    validate_request_data { quantity_needed := some 1000001 } =
      Except.error "Quantity too large (max 1,000,000)" ∧
    validate_request_data { quantity_needed := some 0 } =
      Except.ok { quantity_needed := some 0 } ∧
    validate_request_data { quantity_needed := some 1000000 } =
      Except.ok { quantity_needed := some 1000000 } :=
  ⟨rfl, rfl, rfl, rfl, rfl, rfl⟩

/-- C8 counterexample: on the input made of "ja", then "javascript:", then
"vascript:", the single removal pass deletes only the middle occurrence and
splices the surrounding text into a fresh "javascript:", so the sanitized
output still contains a dangerous substring. -/
theorem sanitize_html_counterexample :
    sanitize_html "jajavascript:vascript:" = "javascript:" ∧
    containsPat "javascript:".data
      (sanitize_html "jajavascript:vascript:").data = true :=
  ⟨rfl, rfl⟩

/-- C8 (amended): sanitize_html removes script-tag blocks, iframe-tag
blocks, "javascript:" URIs and the "onerror="/"onload=" handler attributes
in one case-insensitive substitution pass per pattern; text containing none
of these patterns passes through unchanged, but the output is not
guaranteed to be free of the dangerous substrings, since single-pass
removal can splice together a new occurrence. -/
theorem sanitize_html_spec (s : String)
    (h1 : containsPat "<script".data s.data = false)
    (h2 : containsPat "<iframe".data s.data = false)
    (h3 : containsPat "javascript:".data s.data = false)
    (h4 : containsPat "onerror=".data s.data = false)
    (h5 : containsPat "onload=".data s.data = false) :
    sanitize_html s = s ∧
    sanitize_html "<script type=x>alert(1)</script>safe" = "safe" ∧
    sanitize_html "<iframe src=evil></iframe>rest" = "rest" ∧
    sanitize_html "click javascript:alert(1)" = "click alert(1)" ∧
    sanitize_html "<img onerror=hack src=x onload=go>" = "<img hack src=x go>" := by
  refine ⟨?_, rfl, rfl, rfl, rfl⟩
  unfold sanitize_html
  by_cases hs : s = ""
  · rw [if_pos hs]
  · rw [if_neg hs, removeTag_of_not_contains _ _ _ h1,
      removeTag_of_not_contains _ _ _ h2,
      removeAll_of_not_contains _ _ h3,
      removeAll_of_not_contains _ _ h4,
      removeAll_of_not_contains _ _ h5]

/-- Witness for C8 (amended) on a concrete clean string: text with no
dangerous pattern is returned unchanged. -/
theorem sanitize_html_spec_witness :
    sanitize_html "hello world" = "hello world" :=
  (sanitize_html_spec "hello world" (by decide) (by decide) (by decide)
    (by decide) (by decide)).1
